import Mathlib

set_option maxRecDepth 100000

/-!
Shallow embedding, in Lean 4, of the tool-orchestration core of the
agentic-pharmacy-system repository: the agent loop `run_agent` of
src/agent/agent.py (its transcript handling, tool dispatch, step budget,
final-answer parsing and loop-boundary exception handling) and the four
backend capability wrappers of src/agent/tools.py.

Modelling conventions:
- JSON values are the inductive `Json` (numbers restricted to integers,
  which covers every value the embedded code paths construct or inspect).
- Python exceptions are modelled with `Except String` - a `.error e`
  value is an uncaught exception whose description is `e`.
- The reasoning model (OpenAI chat completion) and the bodies of the
  registered tool handlers are external effects; they are passed in as an
  `Oracle` so the theorems quantify over every behaviour of both.
- `json.loads` is embedded as the executable parser `json_loads`
  (objects, arrays, strings, integers, true/false/null), and `str.format`
  as `pyFormat`, which reproduces CPython's replacement-field scanning
  and KeyError behaviour that the system-prompt template triggers.
- Observability calls (Langfuse spans) have no effect on the transcript
  or the returned answer; per the degrade-to-no-op contract they are not
  modelled.
-/

/-- JSON values as produced by `json.loads` / consumed by `json.dumps`.
Numbers are integers, which is all the embedded code ever constructs. -/
inductive Json where
  | null : Json
  | bool (b : Bool) : Json
  | num (n : Int) : Json
  | str (s : String) : Json
  | arr (elems : List Json) : Json
  | obj (fields : List (String × Json)) : Json

/-- Field lookup on a JSON object (Python `dict.get(k)`); `none` when the
value is not an object or the key is absent. -/
def Json.getField (j : Json) (k : String) : Option Json :=
  match j with
  | .obj fs => fs.lookup k
  | _ => none

/-- Python truthiness of a JSON value (`bool(x)` / `if x:`). -/
def pyTruthy (j : Json) : Bool :=
  match j with
  | .null => false
  | .bool b => b
  | .num n => n != 0
  | .str s => s != ""
  | .arr l => !l.isEmpty
  | .obj f => !f.isEmpty

/-- Left and right curly brace characters (kept out of literals). -/
def lbrace : Char := Char.ofNat 123

/-- Right curly brace character. -/
def rbrace : Char := Char.ofNat 125

/-- Python `int(x)` on a JSON value: `.ok` the integer, `.error` the name
of the exception it raises (`TypeError` for lists/dicts/null,
`ValueError` for non-numeric strings). -/
def pyInt (j : Json) : Except String Int :=
  match j with
  | .num n => .ok n
  | .bool b => .ok (if b then 1 else 0)
  | .str s =>
      let t := s.trim
      let (sgn, ds) : Int × List Char :=
        match t.data with
        | '-' :: rest => (-1, rest)
        | '+' :: rest => (1, rest)
        | cs => (1, cs)
      if ds ≠ [] ∧ ds.all Char.isDigit then
        .ok (sgn * (ds.foldl (fun acc c => acc * 10 + (c.toNat - 48)) 0 : Nat))
      else .error "ValueError"
  | .null => .error "TypeError"
  | .arr _ => .error "TypeError"
  | .obj _ => .error "TypeError"

/-- Whitespace skipping for the JSON parser. -/
def skipWs (s : List Char) : List Char :=
  s.dropWhile (fun c => c == ' ' || c == '\n' || c == '\t' || c == '\r')

/-- One-character JSON string escapes (`\u` is not needed by any embedded
input and is rejected). -/
def unescapeChar (c : Char) : Option Char :=
  if c == '\"' then some '\"'
  else if c == '\\' then some '\\'
  else if c == '/' then some '/'
  else if c == 'n' then some '\n'
  else if c == 't' then some '\t'
  else if c == 'r' then some '\r'
  else if c == 'b' then some (Char.ofNat 8)
  else if c == 'f' then some (Char.ofNat 12)
  else none

/-- Parse the body of a JSON string literal (after the opening quote),
returning the decoded text and the input after the closing quote. -/
def parseStrBody : List Char → Option (String × List Char)
  | [] => none
  | '\\' :: e :: rest =>
      match unescapeChar e with
      | some c => (parseStrBody rest).map (fun p => (String.mk (c :: p.1.data), p.2))
      | none => none
  | '\"' :: rest => some ("", rest)
  | c :: rest => (parseStrBody rest).map (fun p => (String.mk (c :: p.1.data), p.2))

/-- Parse a JSON integer literal; rejects floats and exponents (no
embedded input contains them). -/
def parseNum (s : List Char) : Option (Json × List Char) :=
  let (sgn, s1) : Int × List Char :=
    match s with
    | '-' :: rest => (-1, rest)
    | _ => (1, s)
  let ds := s1.takeWhile Char.isDigit
  let rest := s1.dropWhile Char.isDigit
  if ds = [] then none
  else match rest with
    | '.' :: _ => none
    | 'e' :: _ => none
    | 'E' :: _ => none
    | _ => some (.num (sgn * (ds.foldl (fun acc c => acc * 10 + (c.toNat - 48)) 0 : Nat)), rest)

/-- Parse the members of a JSON object after its first key is known to
follow; `pv` parses one value. Fuel bounds the member count. -/
def parseObjTail (pv : List Char → Option (Json × List Char)) :
    Nat → List Char → Option (List (String × Json) × List Char)
  | 0, _ => none
  | n + 1, s =>
      match skipWs s with
      | '\"' :: r =>
          match parseStrBody r with
          | none => none
          | some (k, r1) =>
              match skipWs r1 with
              | ':' :: r2 =>
                  match pv r2 with
                  | none => none
                  | some (v, r3) =>
                      match skipWs r3 with
                      | ',' :: r4 =>
                          (parseObjTail pv n r4).map (fun p => ((k, v) :: p.1, p.2))
                      | c :: r4 =>
                          if c == rbrace then some ([(k, v)], r4) else none
                      | [] => none
              | _ => none
      | _ => none

/-- Parse the items of a JSON array after its first item is known to
follow; `pv` parses one value. -/
def parseArrTail (pv : List Char → Option (Json × List Char)) :
    Nat → List Char → Option (List Json × List Char)
  | 0, _ => none
  | n + 1, s =>
      match pv s with
      | none => none
      | some (v, r) =>
          match skipWs r with
          | ',' :: r1 => (parseArrTail pv n r1).map (fun p => (v :: p.1, p.2))
          | ']' :: r1 => some ([v], r1)
          | _ => none

/-- Parse one JSON value; fuel bounds the nesting/length. -/
def parseVal : Nat → List Char → Option (Json × List Char)
  | 0, _ => none
  | n + 1, s =>
      match skipWs s with
      | [] => none
      | c :: rest =>
          if c == '\"' then
            (parseStrBody rest).map (fun p => (Json.str p.1, p.2))
          else if c == 't' then
            match rest with
            | 'r' :: 'u' :: 'e' :: r => some (.bool true, r)
            | _ => none
          else if c == 'f' then
            match rest with
            | 'a' :: 'l' :: 's' :: 'e' :: r => some (.bool false, r)
            | _ => none
          else if c == 'n' then
            match rest with
            | 'u' :: 'l' :: 'l' :: r => some (.null, r)
            | _ => none
          else if c == lbrace then
            match skipWs rest with
            | c2 :: r2 =>
                if c2 == rbrace then some (.obj [], r2)
                else
                  (parseObjTail (parseVal n) (n + 1) rest).map
                    (fun p => (Json.obj p.1, p.2))
            | [] => none
          else if c == '[' then
            match skipWs rest with
            | ']' :: r2 => some (.arr [], r2)
            | _ =>
                (parseArrTail (parseVal n) (n + 1) rest).map
                  (fun p => (Json.arr p.1, p.2))
          else if c == '-' ∨ c.isDigit then
            parseNum (c :: rest)
          else none

/-- Embedding of Python `json.loads`: parse one JSON value and require
only trailing whitespace after it; `none` is a `JSONDecodeError`. -/
def json_loads (s : String) : Option Json :=
  match parseVal (s.length + 1) s.data with
  | some (j, rest) => if skipWs rest = [] then some j else none
  | none => none

/-- One requested tool invocation from the model response
(`tool_call["id"]`, `tool_call["function"]["name"]`,
`tool_call["function"]["arguments"]`; absent entries are `none`). -/
structure ToolCall where
  id : Option String
  name : String
  arguments : Option String

/-- The message object of the model response
(`response["choices"][0]["message"]`). -/
structure ChoiceMsg where
  content : Option String
  toolCalls : Option (List ToolCall)

/-- Outcome of one call to the reasoning model: a reply, or an uncaught
exception with description `e` (model failure, transport failure,
missing API key, malformed completion, ...). -/
inductive LLMOutcome where
  | exc (e : String) : LLMOutcome
  | reply (m : ChoiceMsg) : LLMOutcome

/-- Outcome of running a registered tool handler body on bound keyword
arguments: a returned JSON-serializable value, or a raised exception
(TypeError distinguished, since `run_agent` catches it separately). -/
inductive HandlerOutcome where
  | ok (result : Json) : HandlerOutcome
  | raiseTypeError (e : String) : HandlerOutcome
  | raiseExc (e : String) : HandlerOutcome

/-- One transcript message, as appended by `run_agent`:
system/user seed messages, assistant messages carrying requested tool
calls, and tool-result messages (role "tool") carrying the invocation id
they answer and the serialized result. -/
inductive Message where
  | system (content : String) : Message
  | user (content : String) : Message
  | assistant (content : Option String) (toolCalls : List ToolCall) : Message
  | tool (toolCallId : Option String) (name : String) (content : Json) : Message

/-- The invocation id a tool-result message references (`tool_call_id`). -/
def Message.refId : Message → Option String
  | .tool i _ _ => i
  | _ => none

/-- External behaviours the loop consumes: the reasoning model as a
function of the transcript, and the registered handler bodies as a
function of tool name and bound arguments. Theorems quantify over every
oracle, i.e. every behaviour of model and handlers. -/
structure Oracle where
  llm : List Message → LLMOutcome
  tool : String → Json → HandlerOutcome

/-- `TOOL_DISPATCH` of agent.py, reduced to what argument binding needs:
each registered tool name mapped to its parameter names (all four
handlers have only required, non-default parameters). The bodies'
behaviour lives in `Oracle.tool`. -/
def TOOL_DISPATCH : List (String × List String) :=
  [("check_medicine_availability", ["medicine_name"]),
   ("create_order", ["customer_id", "medicine_name", "quantity"]),
   ("get_customer_history", ["customer_id"]),
   ("get_refill_alerts", ["customer_id"])]

/-- Whether Python `f(**args)` binds without a `TypeError` for a function
whose parameters are exactly `params` (all required): `args` must be a
dict providing every parameter and nothing else. -/
def pyKwargsBindable (params : List String) (args : Json) : Bool :=
  match args with
  | .obj fs => params.all (fun p => (fs.lookup p).isSome) &&
      fs.all (fun kv => params.contains kv.1)
  | _ => false

/-- Decoding of a tool call's raw arguments
(`raw_args = tool_call["function"].get("arguments") or "{}"` followed by
`json.loads` with `args = {}` on `JSONDecodeError`). -/
def decodeToolArgs (tc : ToolCall) : Json :=
  let raw := match tc.arguments with
    | none => "\x7b\x7d"
    | some s => if s = "" then "\x7b\x7d" else s
  match json_loads raw with
  | some j => j
  | none => .obj []

/-- The per-invocation executor of `run_agent` (agent.py lines 236-260):
decode arguments, resolve the tool name, run the handler, and convert
every failure into a structured error result. Total: it never raises. -/
def execute_tool_call (tool : String → Json → HandlerOutcome) (tc : ToolCall) : Json :=
  let args := decodeToolArgs tc
  match TOOL_DISPATCH.lookup tc.name with
  | none => .obj [("error", .str ("Unknown tool: " ++ tc.name))]
  | some params =>
      if pyKwargsBindable params args then
        match tool tc.name args with
        | .ok r => r
        | .raiseTypeError _ => .obj [("error", .str ("Invalid arguments for tool " ++ tc.name))]
        | .raiseExc e =>
            .obj [("error", .str ("Tool " ++ tc.name ++ " raised an exception: " ++ e))]
      else .obj [("error", .str ("Invalid arguments for tool " ++ tc.name))]

/-- The tool-result messages appended for one round's requested
invocations, in request order. -/
def toolMessages (o : Oracle) (tcs : List ToolCall) : List Message :=
  tcs.map (fun tc => Message.tool tc.id tc.name (execute_tool_call o.tool tc))

/-- The fixed budget-exhausted final answer (agent.py lines 309-312). -/
def stepLimitAnswer : Json :=
  .obj [("message", .str "The agent could not complete the request within the step limit."),
        ("status", .str "error")]

/-- Final-answer parsing (agent.py lines 293-302): decode the model's
free-form text; a decoded mapping is returned as-is, anything else is
wrapped as `message`/`status: "unknown"`. -/
def finalFromContent (content : Option String) : Json :=
  let c := content.getD ""
  match json_loads c with
  | some (.obj fs) => .obj fs
  | some _ => .obj [("message", .str c), ("status", .str "unknown")]
  | none => .obj [("message", .str c), ("status", .str "unknown")]

/-- The `for _ in range(max_steps)` loop of `run_agent`: one fuel unit
per model call; returns the final answer and the final transcript, or
propagates an uncaught model-call exception. Fuel 0 is the `for`-else
fallback (agent.py lines 308-315). -/
def loopGo (o : Oracle) : Nat → List Message → Except String (Json × List Message)
  | 0, msgs => .ok (stepLimitAnswer, msgs)
  | n + 1, msgs =>
      match o.llm msgs with
      | .exc e => .error e
      | .reply ch =>
          let tcs := ch.toolCalls.getD []
          if tcs.isEmpty then .ok (finalFromContent ch.content, msgs)
          else loopGo o n (msgs ++ Message.assistant ch.content tcs :: toolMessages o tcs)

/-- The body of `run_agent` inside `with create_trace(...)` (agent.py
lines 218-324), given an already-formatted system prompt: the loop plus
the boundary `except Exception` that converts any uncaught failure into
a `status = "error"` final answer. Negative `max_steps` behaves like 0
(`range` is empty). -/
def run_agent_body (o : Oracle) (systemPrompt userInput : String) (maxSteps : Int) : Json :=
  let msgs : List Message := [.system systemPrompt, .user userInput]
  match loopGo o maxSteps.toNat msgs with
  | .ok (r, _) => r
  | .error e => .obj [("message", .str ("Unexpected error in agent: " ++ e)),
                      ("status", .str "error")]


/-- Skip a replacement field's format spec up to its matching closing
brace (CPython allows one level of nesting inside specs). Returns the
input after the closing brace, `none` on an unmatched field. -/
def skipFmtSpec : Nat → Nat → List Char → Option (List Char)
  | 0, _, _ => none
  | _ + 1, _, [] => none
  | n + 1, depth, c :: rest =>
      if c == rbrace then
        if depth = 0 then some rest else skipFmtSpec n (depth - 1) rest
      else if c == lbrace then skipFmtSpec n (depth + 1) rest
      else skipFmtSpec n depth rest

/-- Embedding of CPython `str.format` field scanning: literal text is
copied, doubled braces escape, and each replacement field's name (the
text before `!`, `:` or the closing brace) is looked up among the
keyword arguments - a missing name raises `KeyError`, exactly as
`"...{name}...".format(customer_id=...)` does. Tail-recursive over the
input with an accumulator of output characters in reverse order. -/
def fmtScan (kw : List (String × String)) : Nat → List Char → List Char → Except String String
  | 0, _, _ => .error "FormatInternalError: out of fuel"
  | _ + 1, acc, [] => .ok (String.mk acc.reverse)
  | n + 1, acc, c :: rest =>
      if c == rbrace then
        match rest with
        | c2 :: rest2 =>
            if c2 == rbrace then fmtScan kw n (rbrace :: acc) rest2
            else .error "ValueError: single closing brace in format string"
        | [] => .error "ValueError: single closing brace in format string"
      else if c == lbrace then
        match rest with
        | [] => .error "ValueError: single opening brace in format string"
        | c2 :: rest2 =>
            if c2 == lbrace then fmtScan kw n (lbrace :: acc) rest2
            else
              let fname := rest.takeWhile (fun d => !(d == '!' || d == ':' || d == rbrace))
              let after := rest.dropWhile (fun d => !(d == '!' || d == ':' || d == rbrace))
              match kw.lookup (String.mk fname) with
              | none => .error ("KeyError: " ++ String.mk fname)
              | some v =>
                  match after with
                  | [] => .error "ValueError: expected closing brace before end of string"
                  | a :: after1 =>
                      if a == rbrace then fmtScan kw n (v.data.reverse ++ acc) after1
                      else if a == ':' then
                        match skipFmtSpec n 0 after1 with
                        | some rest3 => fmtScan kw n (v.data.reverse ++ acc) rest3
                        | none => .error "ValueError: unmatched brace in format string"
                      else
                        match after1 with
                        | _conv :: a2 :: after2 =>
                            if a2 == rbrace then fmtScan kw n (v.data.reverse ++ acc) after2
                            else if a2 == ':' then
                              match skipFmtSpec n 0 after2 with
                              | some rest3 => fmtScan kw n (v.data.reverse ++ acc) rest3
                              | none => .error "ValueError: unmatched brace in format string"
                            else .error "ValueError: invalid conversion"
                        | _ => .error "ValueError: invalid conversion"
      else fmtScan kw n (c :: acc) rest

/-- Fuel for `fmtScan`: one unit per input character plus one, built as
a successor tower so matching peels it lazily. -/
def fmtFuel : List Char → Nat → Nat
  | [], acc => Nat.succ acc
  | _ :: cs, acc => fmtFuel cs (Nat.succ acc)

/-- Embedding of Python `template.format(**kwargs)` (string values). -/
def pyFormat (tpl : String) (kw : List (String × String)) : Except String String :=
  fmtScan kw (fmtFuel tpl.data 0) [] tpl.data

/-- The system prompt template of agent.py, verbatim (literal braces and
apostrophes written with character escapes). Its example JSON objects
contain replacement-field braces that were never escaped for
`str.format`. -/
def SYSTEM_PROMPT_TEMPLATE : String :=
  "You are an expert licensed pharmacist assistant for an AI-powered pharmacy. You must ALWAYS use the available tools to check medicine availability, stock, and prescription requirements before making any final decision. Never hallucinate medicine availability or stock levels.\n\nCurrent customer id: {customer_id}.\n\nYour responsibilities:\n1. Understand messy natural language requests about medicines and orders.\n2. Extract the medicine name and quantity from the user\x27s input.\n3. Use the check_medicine_availability tool to verify availability.\n4. If the medicine is available and does not require a prescription,    use create_order with the current customer id to place an order.\n5. If the medicine requires a prescription, you may still create an order,    but it will be pending until verification.\n6. If the user asks about their past orders, use get_customer_history.\n7. If the user asks whether they need any refills or is running out of medicine,    use get_refill_alerts with the current customer id to check for predicted refills.\n8. Never approve or reject an order without consulting tools.\n\nWhen you are ready to answer the user, respond with a single JSON object only, without any extra text. The JSON must contain at least these keys:\n- message: human readable explanation for the user\n- status: one of \x27approved\x27, \x27pending\x27, \x27rejected\x27, \x27refill_suggested\x27, \x27ok\x27, or \x27error\x27\n- order_id: include this key with the numeric id when an order is created,   otherwise you may omit it or set it to null.\n\nExamples of valid responses (do not quote or wrap them in text):\n\x7b \"message\": \"Your order for 5 Paracetamol has been approved.\", \"order_id\": 12, \"status\": \"approved\" \x7d\n\x7b \"message\": \"Paracetamol is currently out of stock.\", \"status\": \"rejected\" \x7d\n\x7b \"message\": \"This medicine requires a prescription. Your order is pending verification.\", \"order_id\": 12, \"status\": \"pending\" \x7d\n\x7b \"message\": \"You are due for a refill of Paracetamol. Would you like to place an order?\", \"status\": \"refill_suggested\", \"refill_items\": [\"Paracetamol\"] \x7d\n\x7b \"message\": \"You are not due for any refills at this time.\", \"status\": \"ok\" \x7d\n\nIf the backend is unavailable or a tool fails, clearly explain this in the message field and set status to \x27rejected\x27 or \x27error\x27 as appropriate."

/-- `run_agent` of agent.py (its returned result dictionary): format the
system prompt (line 208: `SYSTEM_PROMPT_TEMPLATE.format(customer_id=customer_id)`,
which sits OUTSIDE the try block, so a formatting exception propagates
to the caller as `.error`), then run the protected loop body. The Python
default for `max_steps` is 5. -/
def run_agent (o : Oracle) (userInput : String) (customerId : Int) (maxSteps : Int) :
    Except String Json :=
  match pyFormat SYSTEM_PROMPT_TEMPLATE [("customer_id", toString customerId)] with
  | .error e => .error e
  | .ok sys => .ok (run_agent_body o sys userInput maxSteps)

/-- Outcome of `response.json()`: a decoded JSON document, or a decode
failure (the `ValueError` branch of the tool functions). -/
inductive BodyResult where
  | ok (j : Json) : BodyResult
  | badJson : BodyResult

/-- Outcome of one `requests.get`/`requests.post` call as the tool
functions observe it: a transport-level `requests.RequestException`
with description `e` (timeout, connection refused, ...), or an HTTP
response with a status code and a body. -/
inductive HttpResult where
  | exc (e : String) : HttpResult
  | resp (statusCode : Nat) (body : BodyResult) : HttpResult

/-- The message of the `requests.HTTPError` raised by
`response.raise_for_status()` for a 4xx/5xx code (representative text;
the exact wording is internal to the requests library). -/
def httpStatusError (code : Nat) : String :=
  "HTTPError status " ++ toString code

/-- The safe-default dictionary `check_medicine_availability` returns on
a caught failure, with the given error message. -/
def availabilityFailure (msg : String) : Json :=
  .obj [("available", .bool false), ("stock_quantity", .num 0),
        ("prescription_required", .bool false), ("error", .str msg)]

/-- `check_medicine_availability` of tools.py (lines 22-66) as a function
of the backend's behaviour. `.ok` is the returned dictionary; `.error`
is the name of an uncaught exception. The 404 guard runs before
`raise_for_status`; `requests.RequestException` and `ValueError` are the
only exceptions caught, so `data.get` on a non-object body raises
`AttributeError` and `int(...)` of a non-empty list/dict raises
`TypeError`, both uncaught. -/
def check_medicine_availability (h : HttpResult) : Except String Json :=
  match h with
  | .exc e => .ok (availabilityFailure ("Request error: " ++ e))
  | .resp code body =>
      if code = 404 then
        .ok (.obj [("available", .bool false), ("stock_quantity", .num 0),
                   ("prescription_required", .bool false),
                   ("error", .str "Medicine not found")])
      else if 400 ≤ code ∧ code < 600 then
        .ok (availabilityFailure ("Request error: " ++ httpStatusError code))
      else
        match body with
        | .badJson => .ok (availabilityFailure "Invalid JSON response from backend")
        | .ok data =>
            match data with
            | .obj fs =>
                let availableRaw := (fs.lookup "available").getD (.bool false)
                let stockRaw := (fs.lookup "stock_quantity").getD (.num 0)
                let stockOr := if pyTruthy stockRaw then stockRaw else .num 0
                let prescRaw := (fs.lookup "prescription_required").getD (.bool false)
                match pyInt stockOr with
                | .ok n =>
                    .ok (.obj [("available", .bool (pyTruthy availableRaw)),
                               ("stock_quantity", .num n),
                               ("prescription_required", .bool (pyTruthy prescRaw)),
                               ("error", .null)])
                | .error "ValueError" =>
                    .ok (availabilityFailure "Invalid JSON response from backend")
                | .error e => .error e
            | _ => .error "AttributeError"

/-- `create_order` of tools.py (lines 69-110) as a function of the
backend's behaviour. No 404 guard: any 4xx/5xx goes through
`raise_for_status` into the `RequestException` branch. A 2xx body that
is not a JSON object raises `AttributeError` uncaught. -/
def create_order (h : HttpResult) : Except String Json :=
  match h with
  | .exc e =>
      .ok (.obj [("status", .str "rejected"), ("order_id", .null),
                 ("reason", .str "Failed to contact backend service"),
                 ("error", .str ("Request error: " ++ e))])
  | .resp code body =>
      if 400 ≤ code ∧ code < 600 then
        .ok (.obj [("status", .str "rejected"), ("order_id", .null),
                   ("reason", .str "Failed to contact backend service"),
                   ("error", .str ("Request error: " ++ httpStatusError code))])
      else
        match body with
        | .badJson =>
            .ok (.obj [("status", .str "rejected"), ("order_id", .null),
                       ("reason", .str "Invalid response from backend service"),
                       ("error", .str "Invalid JSON response from backend")])
        | .ok data =>
            match data with
            | .obj fs =>
                .ok (.obj [("status", (fs.lookup "status").getD (.str "rejected")),
                           ("order_id", (fs.lookup "order_id").getD .null),
                           ("reason", (fs.lookup "reason").getD .null),
                           ("error", .null)])
            | _ => .error "AttributeError"

/-- `get_customer_history` of tools.py (lines 113-136): the body is used
only through `isinstance(data, list)` and `list(data)`, so this function
never raises. -/
def get_customer_history (h : HttpResult) : Except String Json :=
  match h with
  | .exc e => .ok (.obj [("history", .arr []), ("error", .str ("Request error: " ++ e))])
  | .resp code body =>
      if code = 404 then
        .ok (.obj [("history", .arr []), ("error", .str "Customer not found")])
      else if 400 ≤ code ∧ code < 600 then
        .ok (.obj [("history", .arr []),
                   ("error", .str ("Request error: " ++ httpStatusError code))])
      else
        match body with
        | .badJson => .ok (.obj [("history", .arr []),
                                 ("error", .str "Invalid JSON response from backend")])
        | .ok (.arr l) => .ok (.obj [("history", .arr l), ("error", .null)])
        | .ok _ => .ok (.obj [("history", .arr []), ("error", .null)])

/-- `get_refill_alerts` of tools.py (lines 139-163): same shape as
`get_customer_history`, with an `alerts` field. Never raises. -/
def get_refill_alerts (h : HttpResult) : Except String Json :=
  match h with
  | .exc e => .ok (.obj [("alerts", .arr []), ("error", .str ("Request error: " ++ e))])
  | .resp code body =>
      if code = 404 then
        .ok (.obj [("alerts", .arr []), ("error", .str "Customer not found")])
      else if 400 ≤ code ∧ code < 600 then
        .ok (.obj [("alerts", .arr []),
                   ("error", .str ("Request error: " ++ httpStatusError code))])
      else
        match body with
        | .badJson => .ok (.obj [("alerts", .arr []),
                                 ("error", .str "Invalid JSON response from backend")])
        | .ok (.arr l) => .ok (.obj [("alerts", .arr l), ("error", .null)])
        | .ok _ => .ok (.obj [("alerts", .arr []), ("error", .null)])



-- Decidable equality for `Except` results (both components decidable).
deriving instance DecidableEq for Except

/-- The closed status set of spec section 3, stated in the spec's own
words for comparison with what the code returns. -/
def FINAL_STATUSES : List String :=
  ["approved", "pending", "rejected", "refill_suggested", "ok", "error", "unknown"]

/-- An oracle whose model call always fails with a transport error and
whose handlers return null; used to instantiate closed theorems. -/
def oModelDown : Oracle :=
  ⟨fun _ => .exc "model unavailable", fun _ _ => .ok .null⟩

/-- An oracle whose model immediately answers with a structured mapping
whose status is outside the closed set. -/
def oBanana : Oracle :=
  ⟨fun _ => .reply ⟨some "\x7b\"status\": \"banana\"\x7d", none⟩, fun _ _ => .ok .null⟩

/-- An oracle whose model immediately answers with the literal text
`hello` (not a structured record). -/
def oHello : Oracle :=
  ⟨fun _ => .reply ⟨some "hello", none⟩, fun _ _ => .ok .null⟩

/-- A well-formed refill-alert invocation request. -/
def tcRefill : ToolCall :=
  ⟨some "call-1", "get_refill_alerts", some "\x7b\"customer_id\": 12\x7d"⟩

/-- An oracle whose model requests a tool invocation on every round. -/
def oToolLoop : Oracle :=
  ⟨fun _ => .reply ⟨none, some [tcRefill]⟩,
   fun _ _ => .ok (.obj [("alerts", .arr []), ("error", .null)])⟩

/-- An invocation request naming a capability that is not registered. -/
def tcUnknown : ToolCall :=
  ⟨some "call-9", "teleport_medicine", some "\x7b\x7d"⟩

/-- An oracle whose model requests the unregistered capability once and
then answers. -/
def oUnknownTool : Oracle :=
  ⟨fun msgs => if msgs.length ≤ 2 then .reply ⟨none, some [tcUnknown]⟩
               else .reply ⟨some "done", none⟩,
   fun _ _ => .ok .null⟩

/-- A well-formed order-creation invocation request. -/
def tcOrderGood : ToolCall :=
  ⟨some "call-2", "create_order",
   some "\x7b\"customer_id\": 1, \"medicine_name\": \"Para\", \"quantity\": 2\x7d"⟩

/-- A handler behaviour that raises `TypeError("boom")` from inside the
handler body. -/
def behBoomTE : String → Json → HandlerOutcome :=
  fun _ _ => .raiseTypeError "boom"

/-- A handler behaviour that raises a non-TypeError exception. -/
def behBoomExc : String → Json → HandlerOutcome :=
  fun _ _ => .raiseExc "backend exploded"

-- Sanity checks of the embedded `json.loads` against real JSON semantics.
example : json_loads "hello" = none := rfl

example : json_loads "" = none := rfl
example : json_loads "\x7b\"status\": \"banana\"\x7d" = some (.obj [("status", .str "banana")]) := rfl
example : json_loads " \x7b \"a\": [1, -2, true, null], \"b\": \x7b\x7d \x7d " =
    some (.obj [("a", .arr [.num 1, .num (-2), .bool true, .null]), ("b", .obj [])]) := rfl
example : json_loads "\x7b\x7d" = some (.obj []) := rfl
example : json_loads "\"hi\"" = some (.str "hi") := rfl
example : json_loads "12" = some (.num 12) := rfl
example : json_loads "12.5" = none := rfl

/-- C1 (code_bug evidence): `run_agent` raises before the loop. The
system-prompt template's example JSON objects contain unescaped braces,
so `SYSTEM_PROMPT_TEMPLATE.format(customer_id=...)` (agent.py line 208,
outside the try block) raises `KeyError(' "message"')` on every call and
the caller receives a raw fault instead of a Final Answer. The second
conjunct shows the claim's intended conversion does hold for failures
inside the loop: a model-call failure reaching the loop boundary becomes
a `status = "error"` Final Answer. -/
theorem c1_run_raises_before_loop_boundary :
    run_agent oModelDown "hi" 12 5 = .error ("KeyError: " ++ " \"message\"")
    ∧ run_agent_body oModelDown "SYS" "hi" 5 =
        .obj [("message", .str "Unexpected error in agent: model unavailable"),
              ("status", .str "error")] := by
  constructor
  · have h : pyFormat SYSTEM_PROMPT_TEMPLATE [("customer_id", toString (12 : Int))] =
        .error ("KeyError: " ++ " \"message\"") := by decide
    simp [run_agent, h]
  · rfl

/-- C9 (code_bug evidence): `check_medicine_availability` raises
`AttributeError` when the backend answers 200 with a JSON array body,
and `TypeError` when `stock_quantity` is a non-empty list;
`create_order` likewise raises on a non-object body - contradicting the
module's never-raise contract. The remaining conjuncts show the
backend-unreachable part of the claim does hold: a transport failure
yields the declared shape with a non-null `error` and safe defaults. -/
theorem c9_capability_functions_can_raise :
    check_medicine_availability (.resp 200 (.ok (.arr []))) = .error "AttributeError"
    ∧ check_medicine_availability
        (.resp 200 (.ok (.obj [("stock_quantity", .arr [.num 1])]))) = .error "TypeError"
    ∧ create_order (.resp 200 (.ok (.arr []))) = .error "AttributeError"
    ∧ (∀ e, check_medicine_availability (.exc e) =
        .ok (availabilityFailure ("Request error: " ++ e)))
    ∧ (∀ e, create_order (.exc e) =
        .ok (.obj [("status", .str "rejected"), ("order_id", .null),
                   ("reason", .str "Failed to contact backend service"),
                   ("error", .str ("Request error: " ++ e))]))
    ∧ (∀ e, get_customer_history (.exc e) =
        .ok (.obj [("history", .arr []), ("error", .str ("Request error: " ++ e))]))
    ∧ (∀ e, get_refill_alerts (.exc e) =
        .ok (.obj [("alerts", .arr []), ("error", .str ("Request error: " ++ e))])) :=
  ⟨rfl, rfl, rfl, fun _ => rfl, fun _ => rfl, fun _ => rfl, fun _ => rfl⟩

/-- C10 (counterexample): with `max_steps = 0` the code does not return
the budget-exhausted Final Answer - `run_agent` raises the
prompt-formatting `KeyError` before the loop is reached. -/
theorem c10_counterexample_run_raises_at_zero_steps :
    run_agent oModelDown "x" 7 0 = .error ("KeyError: " ++ " \"message\"") := by
  have h : pyFormat SYSTEM_PROMPT_TEMPLATE [("customer_id", toString (7 : Int))] =
      .error ("KeyError: " ++ " \"message\"") := by decide
  simp [run_agent, h]

/-- C10 (amended): the loop body with a non-positive step budget makes
no model call and no tool invocation and yields the budget-exhausted
answer: its result is the fixed `stepLimitAnswer` for every oracle, so
it is independent of the model's and the handlers' behaviour. -/
theorem c10_amended_nonpositive_budget (o : Oracle) (sys u : String) (k : Int)
    (hk : k ≤ 0) :
    run_agent_body o sys u k = stepLimitAnswer
    ∧ ∀ o2 : Oracle, run_agent_body o2 sys u k = run_agent_body o sys u k := by
  have h0 : k.toNat = 0 := Int.toNat_of_nonpos hk
  constructor
  · simp [run_agent_body, h0, loopGo]
  · intro o2
    simp [run_agent_body, h0, loopGo]

/-- C10 (amended, witness): the loop body at budget 0 returns the fixed
step-limit answer. -/
theorem c10_amended_witness :
    (0 : Int) ≤ 0 ∧ run_agent_body oModelDown "sys" "hi" 0 = stepLimitAnswer :=
  ⟨le_refl 0, (c10_amended_nonpositive_budget oModelDown "sys" "hi" 0 (le_refl 0)).1⟩

/-- Transcript monotonicity: `loopGo` only appends - its starting
transcript is a prefix of the final transcript it returns. -/
theorem loopGo_transcript_mono (o : Oracle) :
    ∀ (n : Nat) (msgs : List Message) (r : Json) (fin : List Message),
      loopGo o n msgs = .ok (r, fin) → msgs <+: fin := by
  intro n
  induction n with
  | zero =>
      intro msgs r fin h
      simp [loopGo] at h
      exact h.2 ▸ List.prefix_refl _
  | succ n ih =>
      intro msgs r fin h
      unfold loopGo at h
      cases hl : o.llm msgs with
      | exc e => rw [hl] at h; simp at h
      | reply ch =>
          rw [hl] at h
          by_cases he : (ch.toolCalls.getD []).isEmpty
          · simp [he] at h
            exact h.2 ▸ List.prefix_refl _
          · simp [he] at h
            exact (List.prefix_append _ _).trans (ih _ _ _ h)

/-- One tool round: when the model's reply carries a non-empty
invocation list, the loop proceeds to the next model call on the old
transcript extended by the assistant message and the round's
tool-result messages. -/
theorem loopGo_tool_round (o : Oracle) (msgs : List Message) (n : Nat)
    (ch : ChoiceMsg) (tcs : List ToolCall)
    (hllm : o.llm msgs = .reply ch) (htcs : ch.toolCalls.getD [] = tcs)
    (hne : tcs ≠ []) :
    loopGo o (n + 1) msgs =
      loopGo o n (msgs ++ Message.assistant ch.content tcs :: toolMessages o tcs) := by
  obtain ⟨a, l, rfl⟩ : ∃ a l, tcs = a :: l := by
    cases tcs with
    | nil => exact absurd rfl hne
    | cons a l => exact ⟨a, l, rfl⟩
  simp [loopGo, hllm, htcs]

/-- C3: the 1:1 tool round-trip invariant. When the model's reply
carries the non-empty invocation list `tcs`, the loop proceeds to the
next model call on exactly the old transcript extended by the assistant
message recording `tcs` followed by one tool-result message per
invocation, in request order, each referencing its invocation's id
(conjuncts 1-3); and that extended transcript is preserved as a prefix
of the run's final transcript, so no message is removed or reordered
(conjunct 4). -/
theorem c3_round_trip_invariant (o : Oracle) (msgs : List Message) (n : Nat)
    (ch : ChoiceMsg) (tcs : List ToolCall)
    (hllm : o.llm msgs = .reply ch) (htcs : ch.toolCalls.getD [] = tcs) (hne : tcs ≠ []) :
    loopGo o (n + 1) msgs =
      loopGo o n (msgs ++ Message.assistant ch.content tcs :: toolMessages o tcs)
    ∧ (toolMessages o tcs).length = tcs.length
    ∧ (toolMessages o tcs).map Message.refId = tcs.map ToolCall.id
    ∧ ∀ r fin, loopGo o (n + 1) msgs = .ok (r, fin) →
        (msgs ++ Message.assistant ch.content tcs :: toolMessages o tcs) <+: fin := by
  have hstep := loopGo_tool_round o msgs n ch tcs hllm htcs hne
  refine ⟨hstep, by simp [toolMessages], ?_, ?_⟩
  · simp only [toolMessages, List.map_map]
    rfl
  · intro r fin h
    rw [hstep] at h
    exact loopGo_transcript_mono o n _ r fin h

/-- C3 (witness): a concrete round with one requested invocation. -/
theorem c3_witness :
    oToolLoop.llm [Message.system "S", Message.user "hi"] = .reply ⟨none, some [tcRefill]⟩
    ∧ ([tcRefill] : List ToolCall) ≠ []
    ∧ loopGo oToolLoop 1 [Message.system "S", Message.user "hi"] =
        loopGo oToolLoop 0
          ([Message.system "S", Message.user "hi"] ++
            Message.assistant none [tcRefill] :: toolMessages oToolLoop [tcRefill]) :=
  ⟨rfl, by simp,
   (c3_round_trip_invariant oToolLoop [Message.system "S", Message.user "hi"] 0
      ⟨none, some [tcRefill]⟩ [tcRefill] rfl rfl (by simp)).1⟩

/-- C4: if the model requests at least one invocation on every round,
the loop exhausts the budget and terminates with the fixed
budget-exhausted Final Answer: `status = "error"`, explanatory message,
and no order id. -/
theorem c4_budget_exhausted_fixed_answer (o : Oracle)
    (hall : ∀ msgs, ∃ ch, o.llm msgs = .reply ch ∧ ch.toolCalls.getD [] ≠ [])
    (sys u : String) (k : Int) :
    run_agent_body o sys u k = stepLimitAnswer
    ∧ stepLimitAnswer.getField "status" = some (.str "error")
    ∧ stepLimitAnswer.getField "order_id" = none := by
  have key : ∀ (n : Nat) (msgs : List Message),
      ∃ fin, loopGo o n msgs = .ok (stepLimitAnswer, fin) := by
    intro n
    induction n with
    | zero => intro msgs; exact ⟨msgs, rfl⟩
    | succ n ih =>
        intro msgs
        obtain ⟨ch, hch, hne⟩ := hall msgs
        have hie : (ch.toolCalls.getD []).isEmpty = false := by
          cases h : ch.toolCalls.getD [] with
          | nil => exact absurd h hne
          | cons a l => rfl
        obtain ⟨fin, hfin⟩ := ih (msgs ++
          Message.assistant ch.content (ch.toolCalls.getD []) ::
            toolMessages o (ch.toolCalls.getD []))
        refine ⟨fin, ?_⟩
        unfold loopGo
        rw [hch]
        simp [hie, hfin]
  obtain ⟨fin, hfin⟩ := key k.toNat [Message.system sys, Message.user u]
  exact ⟨by simp [run_agent_body, hfin], rfl, rfl⟩

/-- C4 (witness): with a model that always requests `tcRefill`, a run
with the default budget of five rounds returns the fixed answer. -/
theorem c4_witness :
    (∃ ch, oToolLoop.llm [] = .reply ch ∧ ch.toolCalls.getD [] ≠ [])
    ∧ run_agent_body oToolLoop "S" "hi" 5 = stepLimitAnswer :=
  ⟨⟨⟨none, some [tcRefill]⟩, rfl, by simp⟩,
   (c4_budget_exhausted_fixed_answer oToolLoop
      (fun _ => ⟨⟨none, some [tcRefill]⟩, rfl, by simp⟩) "S" "hi" 5).1⟩

/-- Every registered capability has at least one required parameter, so
binding an empty argument dictionary fails (`TypeError` in Python). -/
theorem dispatch_params_require_args :
    ∀ name ps, TOOL_DISPATCH.lookup name = some ps →
      pyKwargsBindable ps (.obj []) = false := by
  intro name ps h
  simp only [TOOL_DISPATCH, List.lookup] at h
  repeat' split at h
  all_goals first
    | (injection h with h2; subst h2; decide)
    | (exact absurd h (by simp))

/-- C5: an invocation whose raw arguments fail to decode yields a
structured result with an `error` field and does not raise: the decode
failure silently becomes an empty argument dictionary, which then fails
to bind against every registered capability (or the name is unknown),
so the result is one of the two argument/lookup error dictionaries. -/
theorem c5_malformed_arguments_error (beh : String → Json → HandlerOutcome)
    (tc : ToolCall) (s : String) (hs : tc.arguments = some s)
    (hbad : json_loads s = none) :
    ∃ m, execute_tool_call beh tc = .obj [("error", .str m)]
      ∧ (m = "Unknown tool: " ++ tc.name
         ∨ m = "Invalid arguments for tool " ++ tc.name) := by
  have hargs : decodeToolArgs tc = .obj [] := by
    unfold decodeToolArgs
    rw [hs]
    by_cases hse : s = ""
    · subst hse; rfl
    · simp [hse, hbad]
  unfold execute_tool_call
  rw [hargs]
  cases hd : TOOL_DISPATCH.lookup tc.name with
  | none => exact ⟨_, rfl, Or.inl rfl⟩
  | some ps =>
      have hb := dispatch_params_require_args tc.name ps hd
      refine ⟨_, ?_, Or.inr rfl⟩
      simp [hb]

/-- C5 (witness): undecodable raw arguments for `create_order` produce
the invalid-arguments error result. -/
theorem c5_witness :
    (⟨some "1", "create_order", some "not json"⟩ : ToolCall).arguments = some "not json"
    ∧ json_loads "not json" = none
    ∧ ∃ m, execute_tool_call behBoomExc ⟨some "1", "create_order", some "not json"⟩ =
        .obj [("error", .str m)]
      ∧ (m = "Unknown tool: " ++ "create_order"
         ∨ m = "Invalid arguments for tool " ++ "create_order") :=
  ⟨rfl, rfl, c5_malformed_arguments_error behBoomExc _ "not json" rfl rfl⟩

/-- C6: when the model's reply carries no requested invocations, its
free-form text is decoded: a decoded structured mapping is returned as
the Final Answer verbatim; anything else (or a decode failure) is
wrapped as `(message: raw text, status: "unknown")`. -/
theorem c6_final_text_parsing (o : Oracle) (msgs : List Message) (n : Nat)
    (ch : ChoiceMsg) (hllm : o.llm msgs = .reply ch)
    (hempty : ch.toolCalls.getD [] = []) :
    (∃ fs, json_loads (ch.content.getD "") = some (.obj fs)
        ∧ loopGo o (n + 1) msgs = .ok (.obj fs, msgs))
    ∨ ((∀ fs, json_loads (ch.content.getD "") ≠ some (.obj fs))
        ∧ loopGo o (n + 1) msgs =
            .ok (.obj [("message", .str (ch.content.getD "")),
                       ("status", .str "unknown")], msgs)) := by
  have hrun : loopGo o (n + 1) msgs = .ok (finalFromContent ch.content, msgs) := by
    simp [loopGo, hllm, hempty]
  cases hj : json_loads (ch.content.getD "") with
  | none =>
      refine Or.inr ⟨by simp [hj], ?_⟩
      rw [hrun]
      simp [finalFromContent, hj]
  | some j =>
      cases j with
      | obj fs =>
          refine Or.inl ⟨fs, rfl, ?_⟩
          rw [hrun]
          simp [finalFromContent, hj]
      | null => exact Or.inr ⟨by simp [hj], by rw [hrun]; simp [finalFromContent, hj]⟩
      | bool b => exact Or.inr ⟨by simp [hj], by rw [hrun]; simp [finalFromContent, hj]⟩
      | num m => exact Or.inr ⟨by simp [hj], by rw [hrun]; simp [finalFromContent, hj]⟩
      | str s => exact Or.inr ⟨by simp [hj], by rw [hrun]; simp [finalFromContent, hj]⟩
      | arr l => exact Or.inr ⟨by simp [hj], by rw [hrun]; simp [finalFromContent, hj]⟩

/-- C6 (witness): the literal final text `hello` is not a structured
record, so the Final Answer is exactly
`(message: "hello", status: "unknown")`. -/
theorem c6_witness :
    oHello.llm [Message.system "S", Message.user "hi"] = .reply ⟨some "hello", none⟩
    ∧ loopGo oHello 1 [Message.system "S", Message.user "hi"] =
        .ok (.obj [("message", .str "hello"), ("status", .str "unknown")],
             [Message.system "S", Message.user "hi"]) := by
  refine ⟨rfl, ?_⟩
  rcases c6_final_text_parsing oHello [Message.system "S", Message.user "hi"] 0
      ⟨some "hello", none⟩ rfl rfl with ⟨fs, hfs, _⟩ | ⟨_, h⟩
  · exact absurd hfs (by simp [show json_loads "hello" = none from rfl])
  · exact h

/-- C7: a requested invocation whose capability name is not registered
yields the structured unknown-tool result with a non-null `error` field
(conjuncts 1-2), and the loop continues to the next model call with the
round's results appended instead of aborting (conjunct 3). -/
theorem c7_unknown_capability (o : Oracle) (msgs : List Message) (n : Nat)
    (ch : ChoiceMsg) (tcs : List ToolCall) (tc : ToolCall)
    (hllm : o.llm msgs = .reply ch) (htcs : ch.toolCalls.getD [] = tcs)
    (hmem : tc ∈ tcs) (hunknown : TOOL_DISPATCH.lookup tc.name = none) :
    execute_tool_call o.tool tc = .obj [("error", .str ("Unknown tool: " ++ tc.name))]
    ∧ (execute_tool_call o.tool tc).getField "error" =
        some (.str ("Unknown tool: " ++ tc.name))
    ∧ loopGo o (n + 1) msgs =
        loopGo o n (msgs ++ Message.assistant ch.content tcs :: toolMessages o tcs) := by
  have hexec : execute_tool_call o.tool tc =
      .obj [("error", .str ("Unknown tool: " ++ tc.name))] := by
    unfold execute_tool_call
    rw [hunknown]
  refine ⟨hexec, by rw [hexec]; rfl, ?_⟩
  exact loopGo_tool_round o msgs n ch tcs hllm htcs (List.ne_nil_of_mem hmem)

/-- C7 (witness): the unregistered name `teleport_medicine` produces the
unknown-tool error result and the loop proceeds to the next round. -/
theorem c7_witness :
    TOOL_DISPATCH.lookup "teleport_medicine" = none
    ∧ execute_tool_call oUnknownTool.tool tcUnknown =
        .obj [("error", .str ("Unknown tool: " ++ "teleport_medicine"))]
    ∧ loopGo oUnknownTool 1 [Message.system "S", Message.user "hi"] =
        loopGo oUnknownTool 0
          ([Message.system "S", Message.user "hi"] ++
            Message.assistant none [tcUnknown] :: toolMessages oUnknownTool [tcUnknown]) := by
  have h := c7_unknown_capability oUnknownTool [Message.system "S", Message.user "hi"] 0
    ⟨none, some [tcUnknown]⟩ [tcUnknown] tcUnknown rfl rfl (by simp) rfl
  exact ⟨rfl, h.1, h.2.2⟩

/-- C8 (counterexample): a `TypeError` raised inside a registered
handler body is caught by the executor's `except TypeError` clause, so
the result's error field is the fixed invalid-arguments message and does
not carry the failure's description (`boom` does not occur in it). -/
theorem c8_counterexample_typeerror_description_lost :
    execute_tool_call behBoomTE tcOrderGood =
      .obj [("error", .str "Invalid arguments for tool create_order")]
    ∧ ¬ ("boom".data <:+: "Invalid arguments for tool create_order".data) :=
  ⟨rfl, by decide⟩

/-- C8 (amended): for a registered capability with bindable arguments,
the executor catches every exception and returns exactly one structured
result and never raises: a non-TypeError exception produces an error
result carrying the failure's description, while a TypeError (from
binding or from inside the handler) produces the fixed invalid-arguments
message; a normal return is passed through. -/
theorem c8_amended_executor_total (beh : String → Json → HandlerOutcome)
    (tc : ToolCall) (ps : List String)
    (hreg : TOOL_DISPATCH.lookup tc.name = some ps)
    (hbind : pyKwargsBindable ps (decodeToolArgs tc) = true) :
    (∀ e, beh tc.name (decodeToolArgs tc) = .raiseExc e →
        execute_tool_call beh tc =
          .obj [("error", .str ("Tool " ++ tc.name ++ " raised an exception: " ++ e))])
    ∧ (∀ e, beh tc.name (decodeToolArgs tc) = .raiseTypeError e →
        execute_tool_call beh tc =
          .obj [("error", .str ("Invalid arguments for tool " ++ tc.name))])
    ∧ (∀ r, beh tc.name (decodeToolArgs tc) = .ok r →
        execute_tool_call beh tc = r) := by
  unfold execute_tool_call
  rw [hreg]
  simp only [hbind, if_true]
  exact ⟨fun e he => by rw [he], fun e he => by rw [he], fun r hr => by rw [hr]⟩

/-- C8 (amended, witness): a non-TypeError failure of the order handler
is converted into an error result carrying its description. -/
theorem c8_amended_witness :
    TOOL_DISPATCH.lookup "create_order" =
      some ["customer_id", "medicine_name", "quantity"]
    ∧ pyKwargsBindable ["customer_id", "medicine_name", "quantity"]
        (decodeToolArgs tcOrderGood) = true
    ∧ execute_tool_call behBoomExc tcOrderGood =
        .obj [("error", .str ("Tool " ++ "create_order" ++
          " raised an exception: " ++ "backend exploded"))] := by
  refine ⟨rfl, by decide, ?_⟩
  exact (c8_amended_executor_total behBoomExc tcOrderGood
    ["customer_id", "medicine_name", "quantity"] rfl (by decide)).1
    "backend exploded" rfl

/-- Classification of every final answer the loop can return: the fixed
budget answer, a mapping decoded verbatim from some model reply's final
text, or the unknown-status wrap of that text. -/
theorem loopGo_final_cases (o : Oracle) :
    ∀ (n : Nat) (msgs : List Message) (r : Json) (fin : List Message),
      loopGo o n msgs = .ok (r, fin) →
      r = stepLimitAnswer
      ∨ (∃ msgs1 ch fs, o.llm msgs1 = .reply ch ∧ ch.toolCalls.getD [] = [] ∧
           json_loads (ch.content.getD "") = some (.obj fs) ∧ r = .obj fs)
      ∨ (∃ msgs1 ch, o.llm msgs1 = .reply ch ∧ ch.toolCalls.getD [] = [] ∧
           r = .obj [("message", .str (ch.content.getD "")),
                     ("status", .str "unknown")]) := by
  intro n
  induction n with
  | zero =>
      intro msgs r fin h
      simp [loopGo] at h
      exact Or.inl h.1.symm
  | succ n ih =>
      intro msgs r fin h
      unfold loopGo at h
      cases hl : o.llm msgs with
      | exc e => rw [hl] at h; simp at h
      | reply ch =>
          rw [hl] at h
          by_cases he : (ch.toolCalls.getD []).isEmpty
          · have hg : ch.toolCalls.getD [] = [] := by
              cases hgg : ch.toolCalls.getD [] with
              | nil => rfl
              | cons a l => rw [hgg] at he; simp at he
            simp [he] at h
            have hr : r = finalFromContent ch.content := h.1.symm
            simp only [finalFromContent] at hr
            cases hj : json_loads (ch.content.getD "") with
            | none =>
                rw [hj] at hr
                exact Or.inr (Or.inr ⟨msgs, ch, hl, hg, hr⟩)
            | some j =>
                rw [hj] at hr
                cases j with
                | obj fs => exact Or.inr (Or.inl ⟨msgs, ch, fs, hl, hg, hj, hr⟩)
                | null => exact Or.inr (Or.inr ⟨msgs, ch, hl, hg, hr⟩)
                | bool b => exact Or.inr (Or.inr ⟨msgs, ch, hl, hg, hr⟩)
                | num m => exact Or.inr (Or.inr ⟨msgs, ch, hl, hg, hr⟩)
                | str s => exact Or.inr (Or.inr ⟨msgs, ch, hl, hg, hr⟩)
                | arr l => exact Or.inr (Or.inr ⟨msgs, ch, hl, hg, hr⟩)
          · simp [he] at h
            exact ih _ _ _ h

/-- C2 (counterexample): the loop body returns a model-decoded mapping
verbatim, so a final text decoding to `(status: "banana")` produces a
Final Answer whose status is outside the closed set. -/
theorem c2_counterexample_unvalidated_status :
    run_agent_body oBanana "SYS" "hi" 5 = .obj [("status", .str "banana")]
    ∧ "banana" ∉ FINAL_STATUSES :=
  ⟨rfl, by decide⟩

/-- C2 (amended): every Final Answer the loop itself produces (budget
exhaustion, unstructured-output wrap, caught loop failure) has a status
in the closed set - in fact in `error`/`unknown` - but a structured
mapping decoded from the model's final text is returned verbatim,
without status validation. -/
theorem c2_amended_status_closed_set (o : Oracle) (sys u : String) (k : Int) :
    (∃ msgs1 ch fs, o.llm msgs1 = .reply ch ∧ ch.toolCalls.getD [] = [] ∧
        json_loads (ch.content.getD "") = some (.obj fs) ∧
        run_agent_body o sys u k = .obj fs)
    ∨ ∃ s, (run_agent_body o sys u k).getField "status" = some (.str s)
        ∧ s ∈ FINAL_STATUSES := by
  have hbody : run_agent_body o sys u k =
      (match loopGo o k.toNat [Message.system sys, Message.user u] with
       | .ok (r, _) => r
       | .error e => .obj [("message", .str ("Unexpected error in agent: " ++ e)),
                           ("status", .str "error")]) := rfl
  cases hl : loopGo o k.toNat [Message.system sys, Message.user u] with
  | error e =>
      rw [hl] at hbody
      refine Or.inr ⟨"error", ?_, by decide⟩
      rw [hbody]
      rfl
  | ok p =>
      obtain ⟨r, fin⟩ := p
      rw [hl] at hbody
      rcases loopGo_final_cases o k.toNat _ r fin hl with hr | ⟨m1, ch, fs, h1, h2, h3, h4⟩ |
        ⟨m1, ch, h1, h2, h3⟩
      · refine Or.inr ⟨"error", ?_, by decide⟩
        rw [hbody, hr]
        rfl
      · exact Or.inl ⟨m1, ch, fs, h1, h2, h3, by rw [hbody, h4]⟩
      · refine Or.inr ⟨"unknown", ?_, by decide⟩
        rw [hbody, h3]
        rfl
